import Mathlib

/-!
Verification development for the agents/documents backend
(`src/backend/src`).  The Python source is shallowly embedded:

* machine/python integers become `Nat` (all quantities involved are
  non-negative byte counts, lengths and timestamps);
* `datetime.now()` timestamps become an explicit `Nat` parameter;
* exceptions become `Except` results;
* the Mongo repositories become pure operations on a `StoreState`
  (lists of agent and document records; `_id` lookups are `find?`,
  `replace_one(upsert=True)` is replace-or-append, `delete_one` /
  `delete_many` are filters);
* the S3 `FileStorage` adapter is external: its calls are modelled by a
  boolean "this call raises" flag, and each command result records how
  many blob-store calls were made, so "no blob call happens before the
  failure" is expressible.
-/

namespace AgentsBackend

/-! ### Python string primitives

The handful of `str` methods the core uses are embedded at the
character-list level (the byte-position loops of core `String` functions
do not reduce in the kernel).  All inputs exercised by the claims are
ASCII, for which these agree with Python. -/

/-- Python `s.lower()`. -/
def pyLower (s : String) : String :=
  String.mk (s.data.map Char.toLower)

/-- Python `s.strip()` with no argument: drop whitespace from both ends. -/
def pyStrip (s : String) : String :=
  String.mk (((s.data.dropWhile Char.isWhitespace).reverse.dropWhile
    Char.isWhitespace).reverse)

/-- Python `s.replace(".", "")`: remove every `'.'` character. -/
def removeDots (s : String) : String :=
  String.mk (s.data.filter (fun c => c != '.'))

/-- Python `s.rfind(c)`: index of the last occurrence of `c`, `-1` if
absent. -/
def pyRfind (c : Char) (s : String) : Int :=
  match s.data.reverse.findIdx? (fun x => x == c) with
  | none => -1
  | some i => (s.data.length : Int) - 1 - (i : Int)

/-- `os.path.splitext(p)[1]` on POSIX: the suffix of `p` starting at the
last `'.'`, provided that dot lies after the last `'/'` and the basename
has at least one non-dot character before it (so `".bashrc"` has no
extension); otherwise the empty string. -/
def splitext_ext (p : String) : String :=
  let cs := p.data
  let sepIndex := pyRfind '/' p
  let dotIndex := pyRfind '.' p
  if sepIndex < dotIndex then
    let lo := (sepIndex + 1).toNat
    let hi := dotIndex.toNat
    if ((cs.drop lo).take (hi - lo)).any (fun c => c != '.') then
      String.mk (cs.drop hi)
    else ""
  else ""

/-! ### Domain value objects and entities -/

/-- `DocumentType` enum (`domain/value_objects/documentType.py`). -/
inductive DocumentType where
  | pdf
  | docx
  | xlsx
  | pptx
  | txt
  | csv
deriving DecidableEq, Repr

/-- `DocumentType.value`: the lowercase extension string of each member. -/
def DocumentType.value : DocumentType → String
  | .pdf => "pdf"
  | .docx => "docx"
  | .xlsx => "xlsx"
  | .pptx => "pptx"
  | .txt => "txt"
  | .csv => "csv"

/-- Iteration order of `for doc_type in cls` over the enum. -/
def DocumentType.all : List DocumentType :=
  [.pdf, .docx, .xlsx, .pptx, .txt, .csv]

/-- The normalisation performed by `from_extension` (line 15 of
`documentType.py`): `extension.lower().replace(".", "")` — lowercase,
then remove every occurrence of `"."`. -/
def DocumentType.normalize_ext (extension : String) : String :=
  removeDots (pyLower extension)

/-- `DocumentType.from_extension` (`documentType.py` lines 12-19): the
`for` loop returns the first enum member whose `value` equals the
normalised extension, else raises `ValueError`. -/
def DocumentType.from_extension (extension : String) : Except String DocumentType :=
  match DocumentType.all.find? (fun t => t.value == DocumentType.normalize_ext extension) with
  | some t => Except.ok t
  | none => Except.error ("Unsupported file extension: " ++ DocumentType.normalize_ext extension)

/-- `DocumentType.is_valid_extension` (`documentType.py` lines 21-30).
The Python `None` guard has no counterpart for a Lean `String`. -/
def DocumentType.is_valid_extension (extension : String) : Bool :=
  match DocumentType.from_extension extension with
  | Except.ok _ => true
  | Except.error _ => false

/-- Agent record (`domain/entities/agent.py`).  `AgentId` is an opaque
non-empty string; it is embedded as the raw `String` (its non-emptiness
check appears where `AgentId(...)` is called).  Timestamps are `Nat`. -/
structure Agent where
  id : String
  name : String
  prompt : String
  created_at : Nat
  updated_at : Nat
  documents_count : Nat := 0
deriving DecidableEq, Repr

/-- `Agent._validate_name` (lines 30-35): rejects the empty string and
names longer than 30 characters.  (`isinstance` checks are vacuous.) -/
def Agent.validate_name (name : String) : Except String Unit :=
  if name = "" then
    Except.error "Agent name cannot be empty and must be a string."
  else if name.length > 30 then
    Except.error "Agent name must be at most 30 characters long."
  else
    Except.ok ()

/-- `Agent._validate_prompt` (lines 37-45): rejects the empty string,
length < 10 and length > 2000 — all measured on the *untrimmed* string —
and finally stores `self.prompt.strip()`.  The returned string is the
value stored into the entity. -/
def Agent.validate_prompt (prompt : String) : Except String String :=
  if prompt = "" then
    Except.error "Agent prompt cannot be empty and must be a string."
  else if prompt.length < 10 then
    Except.error "Agent prompt must be at least 10 characters long."
  else if prompt.length > 2000 then
    Except.error "Agent prompt must be at most 2000 characters long."
  else
    Except.ok (pyStrip prompt)

/-- Dataclass construction plus `__post_init__` (lines 25-28): validate
the name, then validate the prompt and store its trimmed value. -/
def Agent.make (id name prompt : String) (created_at updated_at : Nat)
    (documents_count : Nat) : Except String Agent := do
  Agent.validate_name name
  let storedPrompt ← Agent.validate_prompt prompt
  Except.ok { id := id, name := name, prompt := storedPrompt,
              created_at := created_at, updated_at := updated_at,
              documents_count := documents_count }

/-- `Agent.create` (lines 59-72): both timestamps equal, zero documents.
The generated uuid is passed in explicitly. -/
def Agent.create (id name prompt : String) (now : Nat) : Except String Agent :=
  Agent.make id name prompt now now 0

/-- `Agent.update` (lines 47-56), embedded exactly as written: when a new
name is supplied, `self._validate_name()` is called on the *current*
field (the new value is not yet assigned), then `self.name = name.strip()`;
likewise for the prompt (`_validate_prompt` re-trims the current prompt,
which is then overwritten by `prompt.strip()`); finally `updated_at` is
bumped. -/
def Agent.update (a : Agent) (name? : Option String) (prompt? : Option String)
    (now : Nat) : Except String Agent := do
  let a1 ← match name? with
    | some n => do
        Agent.validate_name a.name
        Except.ok { a with name := pyStrip n }
    | none => Except.ok a
  let a2 ← match prompt? with
    | some p => do
        let _ ← Agent.validate_prompt a1.prompt
        Except.ok { a1 with prompt := pyStrip p }
    | none => Except.ok a1
  Except.ok { a2 with updated_at := now }

/-- Document record (`domain/entities/document.py`). -/
structure Document where
  id : String
  agent_id : String
  filename : String
  document_type : DocumentType
  s3_url : String
  s3_key : String
  file_size : Nat
  created_at : Nat
  updated_at : Nat
deriving DecidableEq, Repr

/-- `Document` maximum file size, 20 MiB (`document.py` line 37 and
`uploadDocument.py` line 62). -/
def MAX_FILE_SIZE : Nat := 20 * 1024 * 1024

/-- Dataclass construction plus `__post_init__` of `Document`
(lines 23-41): filename must be non-empty and at most 100 characters
(then stored trimmed); the size must be a positive integer not above
20 MiB.  `file_size` is a `Nat`, so `file_size <= 0` is `file_size = 0`. -/
def Document.make (id agent_id filename : String) (document_type : DocumentType)
    (s3_url s3_key : String) (file_size : Nat) (now : Nat) : Except String Document :=
  if filename = "" then
    Except.error "File name cannot be empty and must be a string."
  else if filename.length > 100 then
    Except.error "File name must be at most 100 characters long."
  else if file_size = 0 then
    Except.error "File size must be a positive integer."
  else if file_size > MAX_FILE_SIZE then
    Except.error "File size must not exceed MAX_FILE_SIZE bytes."
  else
    Except.ok { id := id, agent_id := agent_id, filename := pyStrip filename,
                document_type := document_type, s3_url := s3_url, s3_key := s3_key,
                file_size := file_size, created_at := now, updated_at := now }

/-- Decidable equality for `Except`, used by the `deriving DecidableEq`
clauses of the result records below. -/
instance exceptDecEq {ε α : Type} [DecidableEq ε] [DecidableEq α] :
    DecidableEq (Except ε α) := fun x y =>
  match x, y with
  | Except.error e1, Except.error e2 =>
      if h : e1 = e2 then Decidable.isTrue (congrArg Except.error h)
      else Decidable.isFalse (fun hc => h (Except.error.inj hc))
  | Except.error _, Except.ok _ => Decidable.isFalse (fun hc => Except.noConfusion hc)
  | Except.ok _, Except.error _ => Decidable.isFalse (fun hc => Except.noConfusion hc)
  | Except.ok a1, Except.ok a2 =>
      if h : a1 = a2 then Decidable.isTrue (congrArg Except.ok h)
      else Decidable.isFalse (fun hc => h (Except.ok.inj hc))

/-! ### Store state (Mongo repositories as pure operations) -/

/-- The persistent state seen through `MongoAgentRepository` and
`MongoDocumentRepository`: the two collections. -/
structure StoreState where
  agents : List Agent
  documents : List Document
deriving DecidableEq, Repr

/-- `get_agent_by_id` (`mongoAgentRepository.py` lines 57-63). -/
def get_agent_by_id (st : StoreState) (agent_id : String) : Option Agent :=
  st.agents.find? (fun a => a.id == agent_id)

/-- `save_agent` (`mongoAgentRepository.py` lines 43-55):
`replace_one({_id}, model, upsert=True)` — replace the record with the
same id, or insert.  (`_id` is unique in the collection.) -/
def save_agent (agents : List Agent) (a : Agent) : List Agent :=
  if agents.any (fun x => x.id == a.id) then
    agents.map (fun x => if x.id == a.id then a else x)
  else
    agents ++ [a]

/-- `delete_agent` (`mongoAgentRepository.py` lines 83-86): delete by
`_id`, report whether something was deleted. -/
def delete_agent (agents : List Agent) (agent_id : String) : List Agent × Bool :=
  (agents.filter (fun a => !(a.id == agent_id)), agents.any (fun a => a.id == agent_id))

/-- `MongoDocumentRepository.save` (lines 50-61): upsert by `_id`. -/
def save_document (documents : List Document) (d : Document) : List Document :=
  if documents.any (fun x => x.id == d.id) then
    documents.map (fun x => if x.id == d.id then d else x)
  else
    documents ++ [d]

/-- `find_by_id` (`mongoDocumentRepository.py` lines 63-69). -/
def find_document_by_id (st : StoreState) (document_id : String) : Option Document :=
  st.documents.find? (fun d => d.id == document_id)

/-- `find_by_agent_id` (`mongoDocumentRepository.py` lines 71-81). -/
def find_by_agent_id (st : StoreState) (agent_id : String) : List Document :=
  st.documents.filter (fun d => d.agent_id == agent_id)

/-- `MongoDocumentRepository.delete` (lines 83-86). -/
def delete_document_row (documents : List Document) (document_id : String) :
    List Document × Bool :=
  (documents.filter (fun d => !(d.id == document_id)),
   documents.any (fun d => d.id == document_id))

/-- `delete_by_agent_id` (`mongoDocumentRepository.py` lines 88-91):
`delete_many({agent_id})`, returning the deleted count. -/
def delete_by_agent_id (documents : List Document) (agent_id : String) :
    List Document × Nat :=
  (documents.filter (fun d => !(d.agent_id == agent_id)),
   (documents.filter (fun d => d.agent_id == agent_id)).length)

/-- `count_by_agent_id` (`mongoDocumentRepository.py` lines 93-95). -/
def count_by_agent_id (st : StoreState) (agent_id : String) : Nat :=
  (st.documents.filter (fun d => d.agent_id == agent_id)).length

/-! ### Document validation service
(`application/services/documentValidationService.py`) -/

/-- `MAX_DOCUMENTS_PER_AGENT` (line 26). -/
def MAX_DOCUMENTS_PER_AGENT : Nat := 50

/-- Business exceptions raised by the validation service
(`domain/exceptions/businessExceptions.py`). -/
inductive BusinessError where
  | maxDocumentsPerAgentExceeded (agent_id : String) (current : Nat) (limit : Nat)
  | duplicateDocument (agent_id : String) (filename : String)
deriving DecidableEq, Repr

/-- `DocumentValidationService._validate_documents_limit` (lines 71-82):
reject when the agent's current document count is at or over 50. -/
def validate_documents_limit (st : StoreState) (agent_id : String) :
    Except BusinessError Unit :=
  let current := count_by_agent_id st agent_id
  if current ≥ MAX_DOCUMENTS_PER_AGENT then
    Except.error (BusinessError.maxDocumentsPerAgentExceeded agent_id current
      MAX_DOCUMENTS_PER_AGENT)
  else
    Except.ok ()

/-- `DocumentValidationService._validate_duplicate_document` (lines
84-91): load the agent's documents and raise on the first one whose
filename matches case-insensitively. -/
def validate_duplicate_document (st : StoreState) (agent_id filename : String) :
    Except BusinessError Unit :=
  match (find_by_agent_id st agent_id).find?
      (fun d => pyLower d.filename == pyLower filename) with
  | some _ => Except.error (BusinessError.duplicateDocument agent_id filename)
  | none => Except.ok ()

/-! ### Upload command (`application/commands/uploadDocument.py`) -/

/-- `UploadDocumentDTO` (`application/dto/documentDto.py`).  The file
handle carries no information the command inspects and is omitted. -/
structure UploadDTO where
  agent_id : String
  filename : String
  content_type : String
  file_size : Nat
deriving DecidableEq, Repr

/-- The exceptions `UploadDocumentCommand.execute` can raise. -/
inductive UploadError where
  | invalidAgentId
  | agentNotFound (agent_id : String)
  | invalidFileType (extension : String)
  | fileSizeExceeded (size limit : Nat)
  | storageError
  | entityError (msg : String)
deriving DecidableEq, Repr

/-- Outcome of `UploadDocumentCommand.execute`: the raised exception or
the saved document, the store state after the call, and how many
blob-store (`upload_file`) calls were made. -/
structure UploadResult where
  res : Except UploadError Document
  state : StoreState
  blobUploadCalls : Nat
deriving DecidableEq, Repr

/-- `UploadDocumentCommand.execute` (`uploadDocument.py` lines 74-156).
`blobFails` models the S3 `upload_file` call raising; `newDocId` is the
uuid `Document.create` would generate; `now` the current timestamp.
Steps in source order: `AgentId(dto.agent_id)` (non-empty check), agent
lookup, extension validity via `os.path.splitext`, `from_extension`,
size bound, blob upload (failure propagates), `Document.create`
(its `ValueError`s propagate), `document_repository.save`, then
`agent.documents_count += 1` and `save_agent`.  The saved document
always has an `id`, so the `hasattr` guard at lines 136-138 never
fires. -/
def uploadDocument (st : StoreState) (dto : UploadDTO) (blobFails : Bool)
    (newDocId : String) (now : Nat) : UploadResult :=
  if dto.agent_id = "" then
    { res := Except.error UploadError.invalidAgentId, state := st, blobUploadCalls := 0 }
  else
    match get_agent_by_id st dto.agent_id with
    | none =>
        { res := Except.error (UploadError.agentNotFound dto.agent_id),
          state := st, blobUploadCalls := 0 }
    | some agent =>
        let extension := splitext_ext dto.filename
        if !(DocumentType.is_valid_extension extension) then
          { res := Except.error (UploadError.invalidFileType extension),
            state := st, blobUploadCalls := 0 }
        else
          match DocumentType.from_extension extension with
          | Except.error _ =>
              -- unreachable: guarded by `is_valid_extension`
              { res := Except.error (UploadError.invalidFileType extension),
                state := st, blobUploadCalls := 0 }
          | Except.ok doc_type =>
              if dto.file_size > MAX_FILE_SIZE then
                { res := Except.error
                    (UploadError.fileSizeExceeded dto.file_size MAX_FILE_SIZE),
                  state := st, blobUploadCalls := 0 }
              else
                let s3_key := "agents/" ++ dto.agent_id ++ "/" ++ dto.filename
                if blobFails then
                  -- `upload_file` raised; the exception propagates
                  { res := Except.error UploadError.storageError,
                    state := st, blobUploadCalls := 1 }
                else
                  match Document.make newDocId dto.agent_id dto.filename doc_type
                      ("https://" ++ s3_key) s3_key dto.file_size now with
                  | Except.error msg =>
                      { res := Except.error (UploadError.entityError msg),
                        state := st, blobUploadCalls := 1 }
                  | Except.ok document =>
                      let documents1 := save_document st.documents document
                      let agent1 := { agent with
                        documents_count := agent.documents_count + 1 }
                      let agents1 := save_agent st.agents agent1
                      { res := Except.ok document,
                        state := { agents := agents1, documents := documents1 },
                        blobUploadCalls := 1 }

/-! ### Delete-document command (`application/commands/deleteDocument.py`) -/

/-- Exceptions of `DeleteDocumentCommand.execute`. -/
inductive DeleteDocumentError where
  | documentNotFound (document_id : String)
  | agentNotFound (agent_id : String)
deriving DecidableEq, Repr

/-- Outcome of `DeleteDocumentCommand.execute`, with the count of blob
`delete_file` calls. -/
structure DeleteDocumentResult where
  res : Except DeleteDocumentError Bool
  state : StoreState
  blobDeleteCalls : Nat
deriving DecidableEq, Repr

/-- `DeleteDocumentCommand.execute` (`deleteDocument.py` lines 27-65):
find the document (else `DocumentNotFound`), find its agent (else
`AgentNotFound`), attempt the blob delete — a failure is caught and
logged (`blobDeleteFails` has no effect on the result) — delete the
metadata row, and if that reports success decrement the agent's counter
floored at zero (`Nat` subtraction) and save the agent. -/
def deleteDocument (st : StoreState) (document_id : String)
    (blobDeleteFails : Bool) : DeleteDocumentResult :=
  match find_document_by_id st document_id with
  | none =>
      { res := Except.error (DeleteDocumentError.documentNotFound document_id),
        state := st, blobDeleteCalls := 0 }
  | some document =>
      match get_agent_by_id st document.agent_id with
      | none =>
          { res := Except.error (DeleteDocumentError.agentNotFound document.agent_id),
            state := st, blobDeleteCalls := 0 }
      | some agent =>
          -- `delete_file` is called once; `blobDeleteFails` only decides
          -- whether the caught-and-logged branch is taken
          let _blobRaised := blobDeleteFails
          let deleted := delete_document_row st.documents document_id
          if deleted.2 then
            let agent1 := { agent with
              documents_count := agent.documents_count - 1 }
            { res := Except.ok true,
              state := { agents := save_agent st.agents agent1,
                         documents := deleted.1 },
              blobDeleteCalls := 1 }
          else
            { res := Except.ok false,
              state := { st with documents := deleted.1 },
              blobDeleteCalls := 1 }

/-! ### Delete-agent command (`application/commands/deleteAgent.py`) -/

/-- Exception of `DeleteAgentCommand.execute`. -/
inductive DeleteAgentError where
  | agentNotFound (agent_id : String)
deriving DecidableEq, Repr

/-- Outcome of `DeleteAgentCommand.execute`. -/
structure DeleteAgentResult where
  res : Except DeleteAgentError Bool
  state : StoreState
deriving DecidableEq, Repr

/-- `DeleteAgentCommand.execute` (`deleteAgent.py` lines 30-82): verify
the agent exists (else `AgentNotFound`), fetch its documents, call
`delete_folder` on the agent's prefix — in both the documents-present
and documents-absent branches any storage exception is caught and
logged, so `deleteFolderFails` has no effect on the remaining steps —
then `delete_by_agent_id` removes all metadata rows and `delete_agent`
removes the agent record, whose boolean is returned. -/
def deleteAgent (st : StoreState) (agent_id : String)
    (deleteFolderFails : Bool) : DeleteAgentResult :=
  match get_agent_by_id st agent_id with
  | none =>
      { res := Except.error (DeleteAgentError.agentNotFound agent_id), state := st }
  | some _ =>
      let _blobRaised := deleteFolderFails
      let docsAfter := delete_by_agent_id st.documents agent_id
      let agentsAfter := delete_agent st.agents agent_id
      { res := Except.ok agentsAfter.2,
        state := { agents := agentsAfter.1, documents := docsAfter.1 } }

/-! ### Auxiliary observations and fixtures -/

/-- Whether a `UploadDocumentCommand.execute` call returned normally
(no exception was raised). -/
def uploadSucceeded (r : UploadResult) : Bool :=
  match r.res with
  | Except.ok _ => true
  | Except.error _ => false

/-- `SUPPORTED_FILE_TYPES` (`documentValidationService.py` line 28),
which coincides with the `DocumentType` values. -/
def SUPPORTED_FILE_TYPES : List String :=
  ["pdf", "docx", "xlsx", "pptx", "txt", "csv"]

/-- Modelled from the spec: the normalisation the spec ascribes to
extension handling — "normalize (strip leading dot, lowercase)" /
"lowercasing e and stripping one leading dot".  Stated only to compare
with the source's `DocumentType.normalize_ext`, which instead removes
*every* dot. -/
def specNormalizeExtension (e : String) : String :=
  match (pyLower e).data with
  | '.' :: rest => String.mk rest
  | _ => pyLower e

/-- Fixture: the i-th pre-existing document of the quota fixture. -/
def C1_mkDoc (i : Nat) : Document :=
  { id := "doc-" ++ toString i, agent_id := "agent-1",
    filename := "file-" ++ toString i ++ ".pdf",
    document_type := DocumentType.pdf, s3_url := "u",
    s3_key := "agents/agent-1/file-" ++ toString i ++ ".pdf",
    file_size := 1, created_at := 0, updated_at := 0 }

/-- Fixture: an agent already holding 50 documents. -/
def C1_agent : Agent :=
  { id := "agent-1", name := "Bot", prompt := "a valid prompt",
    created_at := 0, updated_at := 0, documents_count := 50 }

/-- Fixture: store with one agent owning exactly 50 documents. -/
def C1_state : StoreState :=
  { agents := [C1_agent], documents := (List.range 50).map C1_mkDoc }

/-- Fixture: an upload request for the quota-saturated agent. -/
def C1_dto : UploadDTO :=
  { agent_id := "agent-1", filename := "new-file.pdf",
    content_type := "application/pdf", file_size := 100 }

/-- Fixture: store with one agent owning one document `Report.pdf`. -/
def C2_state : StoreState :=
  { agents := [{ id := "agent-2", name := "Bot", prompt := "a valid prompt",
                 created_at := 0, updated_at := 0, documents_count := 1 }],
    documents := [{ id := "doc-a", agent_id := "agent-2", filename := "Report.pdf",
                    document_type := DocumentType.pdf, s3_url := "u",
                    s3_key := "agents/agent-2/Report.pdf", file_size := 5,
                    created_at := 0, updated_at := 0 }] }

/-- Fixture: an upload request whose filename differs from `Report.pdf`
only by case. -/
def C2_dto : UploadDTO :=
  { agent_id := "agent-2", filename := "report.pdf",
    content_type := "application/pdf", file_size := 100 }

/-- Fixture: store with one agent owning two documents. -/
def C3_state : StoreState :=
  { agents := [{ id := "agent-3", name := "Bot", prompt := "a valid prompt",
                 created_at := 0, updated_at := 0, documents_count := 2 }],
    documents := [{ id := "doc-1", agent_id := "agent-3", filename := "a.pdf",
                    document_type := DocumentType.pdf, s3_url := "u",
                    s3_key := "agents/agent-3/a.pdf", file_size := 5,
                    created_at := 0, updated_at := 0 },
                  { id := "doc-2", agent_id := "agent-3", filename := "b.txt",
                    document_type := DocumentType.txt, s3_url := "u",
                    s3_key := "agents/agent-3/b.txt", file_size := 5,
                    created_at := 0, updated_at := 0 }] }

/-- Fixture: store with a single agent and no documents. -/
def C5_state : StoreState :=
  { agents := [{ id := "agent-5", name := "Bot", prompt := "a valid prompt",
                 created_at := 0, updated_at := 0, documents_count := 0 }],
    documents := [] }

/-- Fixture: an upload request for `malware.exe`. -/
def C5_dto : UploadDTO :=
  { agent_id := "agent-5", filename := "malware.exe",
    content_type := "application/pdf", file_size := 10 }

/-- Fixture: an upload request one byte over the 20 MiB bound. -/
def C6_dto : UploadDTO :=
  { agent_id := "agent-5", filename := "big.pdf",
    content_type := "application/pdf", file_size := 20 * 1024 * 1024 + 1 }

/-- Fixture: the empty store. -/
def C7_state : StoreState := { agents := [], documents := [] }

/-- Fixture: a valid agent, input to `Agent.update`. -/
def C8_agent : Agent :=
  { id := "agent-8", name := "Bot", prompt := "a valid prompt here",
    created_at := 0, updated_at := 0, documents_count := 0 }

/-- Fixture: a 31-character name, over the 30-character bound. -/
def C8_long_name : String := String.mk (List.replicate 31 'A')

/-! ### Helper lemmas -/

/-- Filtering for `p` after keeping only the elements violating `p`
leaves nothing. -/
theorem filter_not_filter_nil {α : Type} (p : α → Bool) (l : List α) :
    (l.filter (fun a => !(p a))).filter p = [] := by
  induction l with
  | nil => rfl
  | cons x xs ih => cases hx : p x <;> simp [List.filter_cons, hx, ih]

/-- `find?` for `p` fails on a list from which every `p`-element was
removed. -/
theorem find_filter_not_none {α : Type} (p : α → Bool) (l : List α) :
    (l.filter (fun a => !(p a))).find? p = none := by
  induction l with
  | nil => rfl
  | cons x xs ih => cases hx : p x <;> simp [List.filter_cons, hx, List.find?, ih]

/-! ### Claim C1 -/

/-- C1 counterexample: at a store whose agent already owns 50 documents
(at the `MAX_DOCUMENTS_PER_AGENT` limit), `UploadDocumentCommand.execute`
does not reject with a quota error: it returns normally, performs the
blob write, and adds a 51st metadata row.  The quota check lives only in
the never-invoked `DocumentValidationService`. -/
theorem C1_counterexample :
    count_by_agent_id C1_state "agent-1" = 50
    ∧ uploadSucceeded (uploadDocument C1_state C1_dto false "doc-new" 1) = true
    ∧ (uploadDocument C1_state C1_dto false "doc-new" 1).blobUploadCalls = 1
    ∧ (uploadDocument C1_state C1_dto false "doc-new" 1).state.documents.length = 51 := by
  decide

/-- C1 (amended): `DocumentValidationService._validate_documents_limit`
rejects with `MaxDocumentsPerAgentExceeded(agentId, current, 50)`
whenever the agent's current document count is at or over the limit of
50, before any mutation; `UploadDocumentCommand.execute`, however, never
invokes this service. -/
theorem C1_quota_check_rejects (st : StoreState) (agent_id : String)
    (h : count_by_agent_id st agent_id ≥ MAX_DOCUMENTS_PER_AGENT) :
    validate_documents_limit st agent_id =
      Except.error (BusinessError.maxDocumentsPerAgentExceeded agent_id
        (count_by_agent_id st agent_id) MAX_DOCUMENTS_PER_AGENT) := by
  simp only [validate_documents_limit]
  rw [if_pos h]

/-- C1 witness: the quota fixture discharges the hypothesis. -/
theorem C1_quota_check_rejects_witness :
    count_by_agent_id C1_state "agent-1" ≥ MAX_DOCUMENTS_PER_AGENT
    ∧ validate_documents_limit C1_state "agent-1" =
        Except.error (BusinessError.maxDocumentsPerAgentExceeded "agent-1"
          (count_by_agent_id C1_state "agent-1") MAX_DOCUMENTS_PER_AGENT) :=
  ⟨by decide, C1_quota_check_rejects C1_state "agent-1" (by decide)⟩

/-! ### Claim C2 -/

/-- C2 counterexample: at a store whose agent already owns `Report.pdf`,
uploading `report.pdf` (same filename up to case) is not rejected:
`UploadDocumentCommand.execute` returns normally, writes the blob and
adds a second metadata row.  The duplicate check lives only in the
never-invoked `DocumentValidationService`. -/
theorem C2_counterexample :
    (find_by_agent_id C2_state "agent-2").any
        (fun d => pyLower d.filename == pyLower "report.pdf") = true
    ∧ uploadSucceeded (uploadDocument C2_state C2_dto false "doc-b" 1) = true
    ∧ (uploadDocument C2_state C2_dto false "doc-b" 1).blobUploadCalls = 1
    ∧ (uploadDocument C2_state C2_dto false "doc-b" 1).state.documents.length = 2 := by
  decide

/-- C2 (amended): `DocumentValidationService._validate_duplicate_document`
rejects with `DuplicateDocument(agentId, filename)` whenever some
existing document of the agent has the same filename case-insensitively,
before any mutation; `UploadDocumentCommand.execute`, however, never
invokes this service. -/
theorem C2_duplicate_check_rejects (st : StoreState) (agent_id filename : String)
    (h : (find_by_agent_id st agent_id).any
      (fun d => pyLower d.filename == pyLower filename) = true) :
    validate_duplicate_document st agent_id filename =
      Except.error (BusinessError.duplicateDocument agent_id filename) := by
  unfold validate_duplicate_document
  split
  · rfl
  · rename_i hf
    rw [List.find?_eq_none] at hf
    rw [List.any_eq_true] at h
    obtain ⟨x, hx, hp⟩ := h
    exact absurd hp (by simpa using hf x hx)

/-- C2 witness: the duplicate fixture discharges the hypothesis. -/
theorem C2_duplicate_check_rejects_witness :
    (find_by_agent_id C2_state "agent-2").any
        (fun d => pyLower d.filename == pyLower "report.pdf") = true
    ∧ validate_duplicate_document C2_state "agent-2" "report.pdf" =
        Except.error (BusinessError.duplicateDocument "agent-2" "report.pdf") :=
  ⟨by decide, C2_duplicate_check_rejects C2_state "agent-2" "report.pdf" (by decide)⟩

/-! ### Claim C3 -/

/-- C3: for every existing agent, `DeleteAgentCommand.execute` removes
all of the agent's document metadata rows (`count_by_agent_id` is 0
afterward) and the agent record itself, returning `True` — for either
value of the `delete_folder`-raises flag, since that exception is caught
and the deletion proceeds. -/
theorem C3_cascading_delete (st : StoreState) (agent_id : String)
    (deleteFolderFails : Bool)
    (h : (get_agent_by_id st agent_id).isSome = true) :
    (deleteAgent st agent_id deleteFolderFails).res = Except.ok true
    ∧ count_by_agent_id (deleteAgent st agent_id deleteFolderFails).state agent_id = 0
    ∧ get_agent_by_id (deleteAgent st agent_id deleteFolderFails).state agent_id = none := by
  obtain ⟨a, ha⟩ := Option.isSome_iff_exists.mp h
  have hfind : st.agents.find? (fun x => x.id == agent_id) = some a := ha
  have hmem : a ∈ st.agents := List.mem_of_find?_eq_some hfind
  have hpa := List.find?_some hfind
  unfold deleteAgent
  rw [show get_agent_by_id st agent_id = some a from ha]
  refine ⟨?_, ?_, ?_⟩
  · have hany : st.agents.any (fun x => x.id == agent_id) = true :=
      List.any_eq_true.mpr ⟨a, hmem, hpa⟩
    simp [delete_agent, hany]
  · simp [count_by_agent_id, delete_by_agent_id, filter_not_filter_nil]
  · simp [get_agent_by_id, delete_agent, find_filter_not_none]

/-- C3 witness: the two-document fixture, with the bulk blob delete
raising, discharges the hypothesis. -/
theorem C3_cascading_delete_witness :
    (get_agent_by_id C3_state "agent-3").isSome = true
    ∧ ((deleteAgent C3_state "agent-3" true).res = Except.ok true
       ∧ count_by_agent_id (deleteAgent C3_state "agent-3" true).state "agent-3" = 0
       ∧ get_agent_by_id (deleteAgent C3_state "agent-3" true).state "agent-3" = none) :=
  ⟨by decide, C3_cascading_delete C3_state "agent-3" true (by decide)⟩

/-! ### Claim C4 -/

/-- C4: whenever the blob-store `upload_file` call raises,
`UploadDocumentCommand.execute` does not return normally and leaves the
store state exactly as it was: no document row is saved and no agent
record (in particular no `documents_count`) is modified. -/
theorem C4_blob_failure_no_mutation (st : StoreState) (dto : UploadDTO)
    (newDocId : String) (now : Nat) :
    (uploadDocument st dto true newDocId now).state = st
    ∧ uploadSucceeded (uploadDocument st dto true newDocId now) = false := by
  unfold uploadDocument
  repeat' split
  all_goals first
  | exact ⟨rfl, rfl⟩
  | (cases hvb : DocumentType.is_valid_extension (splitext_ext dto.filename) <;>
      cases hfe : DocumentType.from_extension (splitext_ext dto.filename) <;>
        simp_all [uploadSucceeded])

/-! ### Claim C5 -/

/-- C5: for an existing agent, an upload whose filename's
`os.path.splitext` extension is not a valid `DocumentType` extension
fails with `InvalidFileType` — whatever the declared content-type (the
dto's `content_type` is arbitrary) — with zero blob-store calls and the
state unchanged. -/
theorem C5_invalid_extension_rejected (st : StoreState) (dto : UploadDTO)
    (blobFails : Bool) (newDocId : String) (now : Nat)
    (hid : dto.agent_id ≠ "")
    (hag : (get_agent_by_id st dto.agent_id).isSome = true)
    (hext : DocumentType.is_valid_extension (splitext_ext dto.filename) = false) :
    uploadDocument st dto blobFails newDocId now =
      { res := Except.error (UploadError.invalidFileType (splitext_ext dto.filename)),
        state := st, blobUploadCalls := 0 } := by
  obtain ⟨a, ha⟩ := Option.isSome_iff_exists.mp hag
  simp [uploadDocument, hid, ha, hext]

/-- C5 witness: uploading `malware.exe` for an existing agent. -/
theorem C5_invalid_extension_rejected_witness :
    (C5_dto.agent_id ≠ ""
     ∧ (get_agent_by_id C5_state C5_dto.agent_id).isSome = true
     ∧ DocumentType.is_valid_extension (splitext_ext C5_dto.filename) = false)
    ∧ uploadDocument C5_state C5_dto false "doc-x" 1 =
        { res := Except.error (UploadError.invalidFileType (splitext_ext C5_dto.filename)),
          state := C5_state, blobUploadCalls := 0 } :=
  ⟨⟨by decide, by decide, by decide⟩,
   C5_invalid_extension_rejected C5_state C5_dto false "doc-x" 1
     (by decide) (by decide) (by decide)⟩

/-! ### Claim C6 -/

/-- C6: for an existing agent and a valid extension, an upload whose
declared size exceeds 20*1024*1024 bytes fails with `FileSizeExceeded`,
with zero blob-store calls and the state unchanged. -/
theorem C6_oversize_rejected (st : StoreState) (dto : UploadDTO)
    (blobFails : Bool) (newDocId : String) (now : Nat)
    (hid : dto.agent_id ≠ "")
    (hag : (get_agent_by_id st dto.agent_id).isSome = true)
    (hext : DocumentType.is_valid_extension (splitext_ext dto.filename) = true)
    (hsize : dto.file_size > MAX_FILE_SIZE) :
    uploadDocument st dto blobFails newDocId now =
      { res := Except.error (UploadError.fileSizeExceeded dto.file_size MAX_FILE_SIZE),
        state := st, blobUploadCalls := 0 } := by
  obtain ⟨a, ha⟩ := Option.isSome_iff_exists.mp hag
  obtain ⟨t, ht⟩ : ∃ t, DocumentType.from_extension (splitext_ext dto.filename) =
      Except.ok t := by
    unfold DocumentType.is_valid_extension at hext
    cases hfe : DocumentType.from_extension (splitext_ext dto.filename) with
    | ok t => exact ⟨t, rfl⟩
    | error msg => rw [hfe] at hext; simp at hext
  simp [uploadDocument, hid, ha, hext, ht, hsize]

/-- C6 witness: a 20 MiB + 1 byte `big.pdf` for an existing agent. -/
theorem C6_oversize_rejected_witness :
    (C6_dto.agent_id ≠ ""
     ∧ (get_agent_by_id C5_state C6_dto.agent_id).isSome = true
     ∧ DocumentType.is_valid_extension (splitext_ext C6_dto.filename) = true
     ∧ C6_dto.file_size > MAX_FILE_SIZE)
    ∧ uploadDocument C5_state C6_dto false "doc-x" 1 =
        { res := Except.error (UploadError.fileSizeExceeded C6_dto.file_size MAX_FILE_SIZE),
          state := C5_state, blobUploadCalls := 0 } :=
  ⟨⟨by decide, by decide, by decide, by decide⟩,
   C6_oversize_rejected C5_state C6_dto false "doc-x" 1
     (by decide) (by decide) (by decide) (by decide)⟩

/-! ### Claim C7 -/

/-- C7: deleting a document id that matches no stored document fails
with `DocumentNotFound`, with zero blob-store calls and the state — both
collections, hence the agent counters too — unchanged. -/
theorem C7_missing_document_rejected (st : StoreState) (document_id : String)
    (blobDeleteFails : Bool)
    (h : find_document_by_id st document_id = none) :
    deleteDocument st document_id blobDeleteFails =
      { res := Except.error (DeleteDocumentError.documentNotFound document_id),
        state := st, blobDeleteCalls := 0 } := by
  unfold deleteDocument
  rw [h]

/-- C7 witness: an unknown id against the empty store. -/
theorem C7_missing_document_rejected_witness :
    find_document_by_id C7_state "doc-missing" = none
    ∧ deleteDocument C7_state "doc-missing" true =
        { res := Except.error (DeleteDocumentError.documentNotFound "doc-missing"),
          state := C7_state, blobDeleteCalls := 0 } :=
  ⟨by decide, C7_missing_document_rejected C7_state "doc-missing" true (by decide)⟩

/-! ### Claim C8 -/

/-- C8: `Agent.update` evaluated at the claim's failing input.  The
spec says `update(name?, prompt?)` re-validates the newly supplied
values, but the source calls `_validate_name()` / `_validate_prompt()`
*before* assigning them, so they validate the old fields: a 31-character
name and a 5-character prompt are accepted and stored. -/
theorem C8_update_accepts_invalid_values :
    C8_long_name.length = 31
    ∧ ("short" : String).length < 10
    ∧ Agent.update C8_agent (some C8_long_name) (some "short") 5 =
        Except.ok { C8_agent with name := C8_long_name, prompt := "short",
                                  updated_at := 5 } := by
  decide

/-! ### Claim C9 -/

/-- C9 counterexample: by the claim's normalisation (lowercase, strip
one leading dot) the extension `"p.df"` is not in the supported set, so
`from_extension` should fail; the source instead removes *every* dot
and returns the pdf type (and `is_valid_extension` accepts). -/
theorem C9_counterexample :
    specNormalizeExtension "p.df" ∉ SUPPORTED_FILE_TYPES
    ∧ DocumentType.from_extension "p.df" = Except.ok DocumentType.pdf
    ∧ DocumentType.is_valid_extension "p.df" = true := by
  decide

/-- C9 (amended): `from_extension e` returns the matching type exactly
when lowercasing `e` and removing every dot character yields a member of
{pdf, docx, xlsx, pptx, txt, csv}, and fails for every other string;
`is_valid_extension` returns true exactly for those strings. -/
theorem C9_normalisation_removes_all_dots (e : String) :
    (DocumentType.is_valid_extension e = true ↔
      DocumentType.normalize_ext e ∈ SUPPORTED_FILE_TYPES)
    ∧ ∀ t : DocumentType, (DocumentType.from_extension e = Except.ok t ↔
        DocumentType.normalize_ext e = t.value) := by
  unfold DocumentType.is_valid_extension DocumentType.from_extension
  generalize DocumentType.normalize_ext e = n
  by_cases h1 : n = "pdf"
  · subst h1
    refine ⟨by simp [DocumentType.all, List.find?, DocumentType.value,
      SUPPORTED_FILE_TYPES], fun t => ?_⟩
    cases t <;> simp [DocumentType.all, List.find?, DocumentType.value]
  by_cases h2 : n = "docx"
  · subst h2
    refine ⟨by simp [DocumentType.all, List.find?, DocumentType.value,
      SUPPORTED_FILE_TYPES], fun t => ?_⟩
    cases t <;> simp [DocumentType.all, List.find?, DocumentType.value]
  by_cases h3 : n = "xlsx"
  · subst h3
    refine ⟨by simp [DocumentType.all, List.find?, DocumentType.value,
      SUPPORTED_FILE_TYPES], fun t => ?_⟩
    cases t <;> simp [DocumentType.all, List.find?, DocumentType.value]
  by_cases h4 : n = "pptx"
  · subst h4
    refine ⟨by simp [DocumentType.all, List.find?, DocumentType.value,
      SUPPORTED_FILE_TYPES], fun t => ?_⟩
    cases t <;> simp [DocumentType.all, List.find?, DocumentType.value]
  by_cases h5 : n = "txt"
  · subst h5
    refine ⟨by simp [DocumentType.all, List.find?, DocumentType.value,
      SUPPORTED_FILE_TYPES], fun t => ?_⟩
    cases t <;> simp [DocumentType.all, List.find?, DocumentType.value]
  by_cases h6 : n = "csv"
  · subst h6
    refine ⟨by simp [DocumentType.all, List.find?, DocumentType.value,
      SUPPORTED_FILE_TYPES], fun t => ?_⟩
    cases t <;> simp [DocumentType.all, List.find?, DocumentType.value]
  -- `n` matches no supported value
  have hfind : DocumentType.all.find? (fun t => t.value == n) = none := by
    rw [List.find?_eq_none]
    intro t ht
    cases t <;> simp [DocumentType.value, beq_iff_eq] <;>
      first
      | exact fun hh => h1 hh.symm
      | exact fun hh => h2 hh.symm
      | exact fun hh => h3 hh.symm
      | exact fun hh => h4 hh.symm
      | exact fun hh => h5 hh.symm
      | exact fun hh => h6 hh.symm
  rw [hfind]
  refine ⟨by simp [SUPPORTED_FILE_TYPES, h1, h2, h3, h4, h5, h6], fun t => ?_⟩
  cases t <;> simp [DocumentType.value] <;>
    first | exact h1 | exact h2 | exact h3 | exact h4 | exact h5 | exact h6

/-! ### Claim C10 -/

/-- C10: `Agent._validate_prompt` measures length on the untrimmed
string and stores the trimmed one: every prompt of raw length between
10 and 2000 is accepted with the trimmed value stored, and the accepted
input `"hi"` padded with 8 trailing spaces (raw length 10) constructs an
Agent whose stored prompt has fewer than 10 characters. -/
theorem C10_prompt_validated_untrimmed :
    (∀ p : String, 10 ≤ p.length → p.length ≤ 2000 →
        Agent.validate_prompt p = Except.ok (pyStrip p))
    ∧ ∃ a : Agent, Agent.create "agent-10" "Bot" "hi        " 0 = Except.ok a
        ∧ a.prompt.length < 10 := by
  constructor
  · intro p h1 h2
    have hne : ¬(p = "") := by
      intro he
      subst he
      exact absurd h1 (by decide)
    unfold Agent.validate_prompt
    rw [if_neg hne, if_neg (by omega), if_neg (by omega)]
  · exact ⟨{ id := "agent-10", name := "Bot", prompt := "hi", created_at := 0,
             updated_at := 0, documents_count := 0 }, by decide, by decide⟩

/-- C10 witness: a 10-character prompt discharges the bounds. -/
theorem C10_prompt_validated_untrimmed_witness :
    (10 ≤ ("abcdefghij" : String).length ∧ ("abcdefghij" : String).length ≤ 2000)
    ∧ Agent.validate_prompt "abcdefghij" = Except.ok (pyStrip "abcdefghij") :=
  ⟨⟨by decide, by decide⟩,
   C10_prompt_validated_untrimmed.1 "abcdefghij" (by decide) (by decide)⟩

end AgentsBackend
